import Mathlib

/-!
Shallow embedding of the core of `news_writer_auto` (newsletter metrics
collection): the TinyEmail collector (`src/collectors/tinyemail.py`), the
Beehiiv collector (`src/collectors/beehiiv.py`) and the Supabase writer
(`src/utils/supabase_writer.py`), together with theorems settling the
claims about classification, paginated date-window search, rate
derivation and persistence.

Modelling conventions:
* Python strings are Lean `String`s; the Python substring test
  `needle in hay` is the executable `strHas hay needle` below.
* Python floats are modelled as exact rationals `ℚ`; Python `round(x, d)`
  is `pyRound d x` (round-half-to-even on the exact rational — binary
  floating-point representation artifacts are abstracted away).
* Python `int(x)` on a float is `pyInt x` (truncation toward zero).
* A `datetime` value is abstracted to its calendar-day number; the
  conversion `datetime.fromtimestamp(ts).date()` becomes `tsDay ts`
  (the local-timezone offset is absorbed into the day arithmetic).
* HTTP requests are modelled by a function from page number to an
  abstract response: a successful JSON payload, a non-200 status, or a
  raised exception.
-/

namespace NewsWriter

/-! ### Python-style string containment (`needle in hay`) -/

/-- `swith needle l` : does `l` start with `needle`? (char-list level) -/
def swith : List Char → List Char → Bool
  | [], _ => true
  | _ :: _, [] => false
  | a :: as, b :: bs => a == b && swith as bs

/-- `hsub needle l` : does `needle` occur as a contiguous sublist of `l`? -/
def hsub (needle : List Char) : List Char → Bool
  | [] => needle.isEmpty
  | b :: bs => swith needle (b :: bs) || hsub needle bs

/-- Python's `needle in hay` for strings. -/
def strHas (hay needle : String) : Bool :=
  hsub needle.toList hay.toList

/-! ### Python-style numeric coercions -/

/-- Python `round(q, d)`: round to `d` decimal places, ties to even.
    (Models CPython's `round` on the exact rational value.) -/
def pyRound (d : Nat) (q : ℚ) : ℚ :=
  let s : ℚ := q * 10 ^ d
  let f : ℤ := ⌊s⌋
  let r : ℚ := s - f
  let n : ℤ :=
    if r < 1/2 then f
    else if 1/2 < r then f + 1
    else if f % 2 = 0 then f else f + 1
  (n : ℚ) / 10 ^ d

/-- Python `int(x)` on a float: truncation toward zero. -/
def pyInt (q : ℚ) : ℤ := q.num.tdiv q.den

/-- Day number of a Unix timestamp (`datetime.fromtimestamp(ts).date()`,
    timezone offset abstracted into the day arithmetic). -/
def tsDay (ts : Int) : Int := ts.fdiv 86400

end NewsWriter

namespace NewsWriter

/-! ### Canonical metric record (the dict returned by `extract_metrics` /
    `create_metric`; keys become fields) -/

structure MetricRecord where
  dateDay : Int          -- "Date" (as a day number)
  brand : String         -- "Brand"
  platform : String      -- "Platform"
  campaignType : String  -- "Campaign_Type"
  sends : Nat            -- "Sends"
  deliveredRate : ℚ      -- "Delivered" (holds the delivery-rate percentage)
  opens : Nat            -- "Opens"
  openRate : ℚ           -- "Open Rate"
  uniqueOpens : Nat      -- "Unique Opens"
  uniqueOpenRate : ℚ     -- "Unique Open Rate"
  clicks : Nat           -- "Clicks"
  ctr : ℚ                -- "CTR"
  uniqueClicks : Nat     -- "Unique Clicks"
  uctr : ℚ               -- "UCTR"
  brandListSize : Nat    -- "Brand List Size"
  listGrowth : Int       -- "List Growth"
  unsubscribeRate : ℚ    -- "% Unsubscribe"
  unsubscribes : Nat     -- "Unsubscribes"
  spam : Nat             -- "Spam"
  deriving Repr, DecidableEq

/-! ### TinyEmail collector (`src/collectors/tinyemail.py`) -/

/-- One element of the `content` array of the TinyEmail `/campaign`
    endpoint.  `name` is `campaign["campaign"]["name"]`; the remaining
    fields are the top-level keys read by the collector (`.get(_, 0)` /
    `.get(_, "")` defaults are absorbed by making the fields total). -/
structure TCampaign where
  name : String          -- campaign["campaign"]["name"]
  status : String        -- campaign["status"]
  sent : Nat             -- campaign["sent"]
  delivered : Nat        -- campaign["delivered"]
  totalOpen : Nat        -- campaign["totalOpen"]
  uniqueOpen : Nat       -- campaign["open"]  (unique opens)
  totalClicked : Nat     -- campaign["totalClicked"]
  clicked : Nat          -- campaign["clicked"]
  unsubscribed : Nat     -- campaign["unsubscribed"]
  spam : Nat             -- campaign["spam"]
  deriving Repr, DecidableEq

/-- Response of one TinyEmail `/campaign?page=p&size=50` request:
    HTTP 200 with a `content` list and the `last` flag, a non-200
    status, or a raised exception. -/
inductive TResp where
  | ok (content : List TCampaign) (last : Bool)
  | err (status : Nat)
  | exn
  deriving Repr, DecidableEq

/-- A Python date, as used to render the date-format strings. -/
structure PyDate where
  month : Nat
  day : Nat
  year : Nat
  deriving Repr, DecidableEq

/-- Zero-padded two-digit rendering (`%m`, `%d`, `%y`). -/
def fmt2 (n : Nat) : String :=
  if n < 10 then "0" ++ toString n else toString n

/-- The four date strings of `get_campaigns_for_date`:
    `%m.%d.%y`, `%m.%d.%Y`, `%-m.%-d.%y`, `%Y-%m-%d`. -/
def dateFormats (d : PyDate) : List String :=
  [ fmt2 d.month ++ "." ++ fmt2 d.day ++ "." ++ fmt2 (d.year % 100),
    fmt2 d.month ++ "." ++ fmt2 d.day ++ "." ++ toString d.year,
    toString d.month ++ "." ++ toString d.day ++ "." ++ fmt2 (d.year % 100),
    toString d.year ++ "-" ++ fmt2 d.month ++ "-" ++ fmt2 d.day ]

/-- Does any accepted date format occur in the campaign name?
    (`matches_date = any(date_fmt in name for date_fmt in date_formats)`) -/
def tMatchesDate (formats : List String) (name : String) : Bool :=
  formats.any (fun f => strHas name f)

/-- The page loop of `TinyEmailCollector.get_campaigns_for_date`.
    `fuel` counts the remaining iterations of `while page < 20`;
    a non-200 status or an exception breaks, a 200 page appends its
    date-matching campaigns and continues unless `last` is set. -/
def tSearchLoop (fetch : Nat → TResp) (formats : List String) :
    Nat → Nat → List TCampaign → List TCampaign
  | 0, _, acc => acc
  | fuel + 1, page, acc =>
    match fetch page with
    | .ok content last =>
      let acc' := acc ++ content.filter (fun c => tMatchesDate formats c.name)
      if last then acc' else tSearchLoop fetch formats fuel (page + 1) acc'
    | .err _ => acc
    | .exn => acc

/-- `TinyEmailCollector.get_campaigns_for_date`: pages 0,1,… up to the
    hard cap of 20 pages. -/
def get_campaigns_for_date (fetch : Nat → TResp) (target : PyDate) :
    List TCampaign :=
  tSearchLoop fetch (dateFormats target) 20 0 []

/-- The PM test of `get_previous_sends` (all five PM markers). -/
def prevIsPM (name : String) : Bool :=
  strHas name "Daily Digest PM" ||
  strHas name "Dedicated CPM" ||
  (strHas name " PM " && strHas name "Daily Digest" && !strHas name "CPM") ||
  strHas name " PM-" ||
  strHas name "_PM"

/-- One step of `get_previous_sends`: the running totals are the
    `previous_sends` dict, as an (AM total, PM total) pair. -/
def prevStep (st : Nat × Nat) (c : TCampaign) : Nat × Nat :=
  if c.status == "COMPLETED" && 100 < c.sent then
    if prevIsPM c.name then (st.1, st.2 + c.sent) else (st.1 + c.sent, st.2)
  else st

/-- `TinyEmailCollector.get_previous_sends`: previous-day sends summed
    per segment (`.1` = AM, `.2` = PM; an absent dict key reads as 0). -/
def get_previous_sends (campaigns : List TCampaign) : Nat × Nat :=
  campaigns.foldl prevStep (0, 0)

/-- `is_daily_digest_pm` of `separate_all_campaigns`. -/
def isDailyDigestPM (name : String) : Bool :=
  strHas name "Daily Digest PM" ||
  (strHas name " PM " && strHas name "Daily Digest" && !strHas name "CPM")

/-- `is_dedicated_cpm` of `separate_all_campaigns`. -/
def isDedicatedCPM (name : String) : Bool :=
  strHas name "Dedicated CPM" ||
  (strHas name "CPM" && !strHas name "Daily Digest")

/-- One step of `separate_all_campaigns` over the `(am, pm)` lists. -/
def sepStep (st : List TCampaign × List TCampaign) (c : TCampaign) :
    List TCampaign × List TCampaign :=
  if !(c.status == "COMPLETED") || c.sent ≤ 100 then st
  else if isDailyDigestPM c.name || isDedicatedCPM c.name then
    (st.1, st.2 ++ [c])
  else if strHas c.name "Daily Digest" then (st.1 ++ [c], st.2)
  else st

/-- `TinyEmailCollector.separate_all_campaigns`: split a day's campaigns
    into (AM list, PM list); campaigns matching neither pattern, or not
    COMPLETED, or with `sent ≤ 100`, land in neither list. -/
def separate_all_campaigns (campaigns : List TCampaign) :
    List TCampaign × List TCampaign :=
  campaigns.foldl sepStep ([], [])

/-- `TinyEmailCollector.create_metric`: assemble the canonical record for
    one campaign.  All rates are based on `sent`; `sends == 0` forces
    every rate to 0. -/
def create_metric (c : TCampaign) (brandName : String) (targetDay : Int)
    (segment : String) (listGrowth : Int) : MetricRecord :=
  let sends := c.sent
  let deliveryRate : ℚ :=
    if 0 < sends then ((c.delivered : ℚ) / sends) * 100 else 0
  let openRate : ℚ :=
    if 0 < sends then ((c.totalOpen : ℚ) / sends) * 100 else 0
  let uniqueOpenRate : ℚ :=
    if 0 < sends then ((c.uniqueOpen : ℚ) / sends) * 100 else 0
  let ctr : ℚ :=
    if 0 < sends then ((c.totalClicked : ℚ) / sends) * 100 else 0
  let uctr : ℚ :=
    if 0 < sends then ((c.clicked : ℚ) / sends) * 100 else 0
  let unsubscribeRate : ℚ :=
    if 0 < sends then ((c.unsubscribed : ℚ) / sends) * 100 else 0
  { dateDay := targetDay
    brand := brandName
    platform := "TinyEmail"
    campaignType := if segment == "AM" || segment == "PM" then segment
                    else "Newsletter"
    sends := sends
    deliveredRate := pyRound 2 deliveryRate
    opens := c.totalOpen
    openRate := pyRound 2 openRate
    uniqueOpens := c.uniqueOpen
    uniqueOpenRate := pyRound 2 uniqueOpenRate
    clicks := c.totalClicked
    ctr := pyRound 2 ctr
    uniqueClicks := c.clicked
    uctr := pyRound 2 uctr
    brandListSize := sends
    listGrowth := listGrowth
    unsubscribeRate := pyRound 4 unsubscribeRate
    unsubscribes := c.unsubscribed
    spam := c.spam }

/-! ### Beehiiv collector (`src/collectors/beehiiv.py`) -/

/-- The `stats.email` block of a Beehiiv post (`.get(_, 0)` defaults
    absorbed by total `Nat` fields). -/
structure EmailStats where
  recipients : Nat
  delivered : Nat
  opens : Nat
  unique_opens : Nat
  clicks : Nat
  unique_clicks : Nat
  unsubscribes : Nat
  spam_reports : Nat
  deriving Repr, DecidableEq

/-- A Beehiiv post as read by the collector.  `publish_date` is the raw
    JSON value: `none` for a missing/null key; Python treats both a
    missing key and a `0` timestamp as falsy. -/
structure BPost where
  publish_date : Option Int
  title : String
  content_tags : List String
  stats : EmailStats
  deriving Repr, DecidableEq

/-- Is `publish_date` truthy in Python (`post.get("publish_date")`)? -/
def pdTruthy (p : BPost) : Bool :=
  match p.publish_date with
  | none => false
  | some ts => ts != 0

/-- Response of one Beehiiv `/publications/{id}/posts` page request
    (the request carries `status=confirmed`, `limit=100`, `expand=stats`):
    HTTP 200 with the post list and `total_pages`, a non-200 status, or a
    raised exception. -/
inductive BResp where
  | ok (posts : List BPost) (total_pages : Nat)
  | err (status : Nat)
  | exn
  deriving Repr, DecidableEq

/-- ASCII lower-casing of one character (Python `str.lower()`; the
    newsletter tags are ASCII). -/
def lowerChar (c : Char) : Char :=
  if 65 ≤ c.toNat && c.toNat ≤ 90 then Char.ofNat (c.toNat + 32) else c

/-- `BeehiivNewsletterCollector.is_newsletter_post`: some tag,
    lower-cased, contains one of the newsletter variant substrings. -/
def is_newsletter_post (content_tags : List String) : Bool :=
  let variations := ["newsletter", "news-letter", "news_letter",
                     "daily newsletter", "daily-newsletter",
                     "daily_newsletter"]
  content_tags.any (fun tag =>
    variations.any (fun v => hsub v.toList (tag.toList.map lowerChar)))

/-- The per-post body of the Beehiiv page scan: skip posts with a falsy
    `publish_date`, keep only posts of the target day, drop "Dedicated
    CPM" titles, then apply the tag filter (unless disabled); recipients
    always accumulate for kept posts, the post itself is appended only
    when `get_full_data`. -/
def bProcessPost (useTagFilter getFullData : Bool) (targetDay : Int)
    (st : List BPost × Nat) (post : BPost) : List BPost × Nat :=
  match post.publish_date with
  | none => st
  | some ts =>
    if ts = 0 then st
    else if tsDay ts = targetDay then
      if strHas post.title "Dedicated CPM" then st
      else if useTagFilter then
        if is_newsletter_post post.content_tags then
          ((if getFullData then st.1 ++ [post] else st.1),
           st.2 + post.stats.recipients)
        else st
      else
        ((if getFullData then st.1 ++ [post] else st.1),
         st.2 + post.stats.recipients)
    else st

/-- One page's `for post in posts` loop. -/
def bProcessPage (useTagFilter getFullData : Bool) (targetDay : Int)
    (posts : List BPost) (st : List BPost × Nat) : List BPost × Nat :=
  posts.foldl (bProcessPost useTagFilter getFullData targetDay) st

/-- The page loop of `get_posts_for_date` (`while page <= max_pages`,
    `max_pages = 50`; `fuel` counts the remaining admissible pages).
    Any non-200 status (404/400 included) breaks, an exception breaks,
    an empty page breaks, and `page >= total_pages` breaks after
    processing the page. -/
def bSearchLoop (fetch : Nat → BResp) (targetDay : Int)
    (useTagFilter getFullData : Bool) :
    Nat → Nat → List BPost × Nat → List BPost × Nat
  | 0, _, st => st
  | fuel + 1, page, st =>
    match fetch page with
    | .ok posts total_pages =>
      if posts.isEmpty then st
      else
        let st' := bProcessPage useTagFilter getFullData targetDay posts st
        if total_pages ≤ page then st'
        else bSearchLoop fetch targetDay useTagFilter getFullData fuel
               (page + 1) st'
    | .err _ => st
    | .exn => st

/-- Brands exempt from the newsletter-tag filter. -/
def no_tag_brands : List String := ["News Flash", "News Stand"]

/-- `BeehiivNewsletterCollector.get_posts_for_date`: a brand absent from
    the loaded publications catalog yields `([], 0)`; otherwise the page
    loop runs from page 1 with a 50-page cap.  Returns
    (newsletter_posts, total_recipients). -/
def get_posts_for_date (publications : List String) (brandName : String)
    (fetch : Nat → BResp) (targetDay : Int) (getFullData : Bool) :
    List BPost × Nat :=
  if publications.contains brandName then
    bSearchLoop fetch targetDay (!no_tag_brands.contains brandName)
      getFullData 50 1 ([], 0)
  else ([], 0)

/-- `BeehiivNewsletterCollector.extract_metrics`.  `nowDay` stands for
    `datetime.now()`, used only by the fallback for a falsy
    `publish_date`.  All rates are based on `recipients` (used as
    Sends); the unsubscribe rate is left as an unscaled fraction. -/
def extract_metrics (nowDay : Int) (post : BPost) (brandName : String)
    (previousDayRecipients : Nat) : MetricRecord :=
  let postDay : Int :=
    match post.publish_date with
    | none => nowDay
    | some ts => if ts = 0 then nowDay else tsDay ts
  let s := post.stats
  let sends := s.recipients
  let deliveryRate : ℚ :=
    if 0 < sends then ((s.delivered : ℚ) / sends) * 100 else 0
  let openRate : ℚ :=
    if 0 < sends then ((s.opens : ℚ) / sends) * 100 else 0
  let uniqueOpenRate : ℚ :=
    if 0 < sends then ((s.unique_opens : ℚ) / sends) * 100 else 0
  let ctr : ℚ :=
    if 0 < sends then ((s.clicks : ℚ) / sends) * 100 else 0
  let uctr : ℚ :=
    if 0 < sends then ((s.unique_clicks : ℚ) / sends) * 100 else 0
  let unsubscribeRate : ℚ :=
    if 0 < sends then (s.unsubscribes : ℚ) / sends else 0
  { dateDay := postDay
    brand := brandName
    platform := "Beehiiv"
    campaignType := "Newsletter"
    sends := sends
    deliveredRate := pyRound 2 deliveryRate
    opens := s.opens
    openRate := pyRound 2 openRate
    uniqueOpens := s.unique_opens
    uniqueOpenRate := pyRound 2 uniqueOpenRate
    clicks := s.clicks
    ctr := pyRound 2 ctr
    uniqueClicks := s.unique_clicks
    uctr := pyRound 2 uctr
    brandListSize := sends
    listGrowth := (sends : Int) - previousDayRecipients
    unsubscribeRate := pyRound 4 unsubscribeRate
    unsubscribes := s.unsubscribes
    spam := s.spam_reports }

/-- Does a post qualify for collection on the Beehiiv page scan
    (truthy publish date, target day, not a "Dedicated CPM" title, and
    the newsletter-tag test unless the brand is tag-exempt)?  Derived
    predicate used to characterise `bProcessPost`. -/
def bQualifies (useTagFilter : Bool) (targetDay : Int) (p : BPost) : Bool :=
  match p.publish_date with
  | none => false
  | some ts =>
    ts != 0 && tsDay ts == targetDay &&
    !strHas p.title "Dedicated CPM" &&
    (!useTagFilter || is_newsletter_post p.content_tags)

/-- Posts of a Beehiiv page response (`[]` for a non-200 / exception). -/
def bOkPosts : BResp → List BPost
  | .ok posts _ => posts
  | .err _ => []
  | .exn => []

/-- Process `k` consecutive Beehiiv pages starting at `page`, assuming
    each request succeeded; the reference accumulation the page loop is
    compared against. -/
def bRunPages (fetch : Nat → BResp) (targetDay : Int)
    (useTagFilter getFullData : Bool) :
    Nat → Nat → List BPost × Nat → List BPost × Nat
  | _, 0, st => st
  | page, k + 1, st =>
    bRunPages fetch targetDay useTagFilter getFullData (page + 1) k
      (bProcessPage useTagFilter getFullData targetDay
        (bOkPosts (fetch page)) st)

/-- Content of a TinyEmail page response (`[]` for non-200 / exception). -/
def tOkContent : TResp → List TCampaign
  | .ok content _ => content
  | .err _ => []
  | .exn => []

/-- Process `k` consecutive TinyEmail pages starting at `page`, assuming
    each request succeeded. -/
def tRunPages (fetch : Nat → TResp) (formats : List String) :
    Nat → Nat → List TCampaign → List TCampaign
  | _, 0, acc => acc
  | page, k + 1, acc =>
    tRunPages fetch formats (page + 1) k
      (acc ++ (tOkContent (fetch page)).filter
        (fun c => tMatchesDate formats c.name))

/-- The step condition of `separate_all_campaigns` for the PM list. -/
def sepPMpred (c : TCampaign) : Bool :=
  c.status == "COMPLETED" && decide (100 < c.sent) &&
  (isDailyDigestPM c.name || isDedicatedCPM c.name)

/-- The step condition of `separate_all_campaigns` for the AM list. -/
def sepAMpred (c : TCampaign) : Bool :=
  c.status == "COMPLETED" && decide (100 < c.sent) &&
  !(isDailyDigestPM c.name || isDedicatedCPM c.name) &&
  strHas c.name "Daily Digest"

/-- The volume/status condition of `get_previous_sends`. -/
def prevQual (c : TCampaign) : Bool :=
  c.status == "COMPLETED" && decide (100 < c.sent)

/-! ### Supabase writer (`src/utils/supabase_writer.py`) -/

/-- The row assembled by `SupabaseWriter.write_metrics` (the metric
    columns; the audit timestamps are outside the data mapping). -/
structure DbRow where
  date : Int
  brand : String
  platform : String
  campaign_type : String
  sends : Int
  delivered : Int          -- int(float(record['Delivered']))
  opens : Int
  open_rate : ℚ
  unique_opens : Int
  unique_open_rate : ℚ
  clicks : Int
  ctr : ℚ
  unique_clicks : Int
  uctr : ℚ
  brand_list_size : Int
  list_growth : Int
  unsubscribes : Int
  unsubscribe_rate : ℚ
  spam_reports : Int
  deriving Repr, DecidableEq

/-- The record-to-row transform of `SupabaseWriter.write_metrics`. -/
def write_metrics (r : MetricRecord) : DbRow :=
  { date := r.dateDay
    brand := r.brand
    platform := r.platform
    campaign_type := r.campaignType
    sends := r.sends
    delivered := pyInt r.deliveredRate
    opens := r.opens
    open_rate := r.openRate
    unique_opens := r.uniqueOpens
    unique_open_rate := r.uniqueOpenRate
    clicks := r.clicks
    ctr := r.ctr
    unique_clicks := r.uniqueClicks
    uctr := r.uctr
    brand_list_size := r.brandListSize
    list_growth := r.listGrowth
    unsubscribes := r.unsubscribes
    unsubscribe_rate := r.unsubscribeRate
    spam_reports := r.spam }

/-! ### Concrete data for counterexamples and witnesses -/

/-- All-zero Beehiiv stats block. -/
def zeroStats : EmailStats :=
  { recipients := 0, delivered := 0, opens := 0, unique_opens := 0,
    clicks := 0, unique_clicks := 0, unsubscribes := 0, spam_reports := 0 }

/-- A tagged newsletter post published on day 99 (timestamp 99·86400). -/
def exPostOld : BPost :=
  { publish_date := some 8553600, title := "Old news",
    content_tags := ["newsletter"],
    stats := { zeroStats with recipients := 1000, delivered := 950 } }

/-- A tagged newsletter post published on day 100 (timestamp 100·86400). -/
def exPostNew : BPost :=
  { publish_date := some 8640000, title := "Target day news",
    content_tags := ["newsletter"],
    stats := { zeroStats with recipients := 2000, delivered := 1900 } }

/-- Beehiiv trace for the C1 counterexample: page 1 holds only an
    off-target post, page 2 raises a network exception, page 3 holds a
    qualifying on-target post; `total_pages` is 3 throughout. -/
def exFetchC1 : Nat → BResp := fun p =>
  if p = 1 then .ok [exPostOld] 3
  else if p = 2 then .exn
  else if p = 3 then .ok [exPostNew] 3
  else .err 404

/-- Error-free Beehiiv trace: off-target posts on pages 1–2, the
    qualifying on-target post on the signalled last page 3. -/
def exFetchOk : Nat → BResp := fun p =>
  if p = 1 then .ok [exPostOld] 3
  else if p = 2 then .ok [exPostOld] 3
  else if p = 3 then .ok [exPostNew] 3
  else .err 404

/-- Beehiiv trace failing with a server error on page 2. -/
def exFetchErr : Nat → BResp := fun p =>
  if p = 1 then .ok [exPostOld] 3 else .err 500

/-- A confirmed, date-matching, tagged post with only 50 recipients. -/
def exSmall : BPost :=
  { publish_date := some 8640000, title := "Small send",
    content_tags := ["newsletter"],
    stats := { recipients := 50, delivered := 48, opens := 20,
               unique_opens := 15, clicks := 5, unique_clicks := 4,
               unsubscribes := 1, spam_reports := 0 } }

/-- One-page Beehiiv trace carrying only `exSmall`. -/
def exFetchSmall : Nat → BResp := fun p =>
  if p = 1 then .ok [exSmall] 1 else .err 404

/-- A date-matching dedicated-broadcast post on day 100. -/
def exCPM : BPost :=
  { publish_date := some 8640000, title := "Dedicated CPM 10.15.25",
    content_tags := [],
    stats := { zeroStats with recipients := 5000, delivered := 4900 } }

/-- One-page Beehiiv trace carrying only `exCPM`. -/
def exFetchCPM : Nat → BResp := fun p =>
  if p = 1 then .ok [exCPM] 1 else .err 404

/-- A high-volume post whose delivery rate is the non-integral 90.64%. -/
def exPost9 : BPost :=
  { publish_date := some 8640000, title := "Morning Edition",
    content_tags := ["newsletter"],
    stats := { recipients := 10000, delivered := 9064, opens := 4000,
               unique_opens := 3500, clicks := 800, unique_clicks := 700,
               unsubscribes := 25, spam_reports := 2 } }

/-- The canonical record extracted from `exPost9`. -/
def exRec9 : MetricRecord := extract_metrics 0 exPost9 "Alpha" 0

/-- A completed campaign whose name carries the `_PM` marker but not the
    literal "Daily Digest PM" and no standalone " PM " token. -/
def exPMu : TCampaign :=
  { name := "Daily Digest_PM 10.15.25", status := "COMPLETED",
    sent := 5000, delivered := 4900, totalOpen := 2000, uniqueOpen := 1500,
    totalClicked := 300, clicked := 200, unsubscribed := 10, spam := 1 }

/-- A completed "Daily Digest PM" campaign. -/
def exDDPM : TCampaign :=
  { name := "Daily Digest PM 10.15.25", status := "COMPLETED",
    sent := 4000, delivered := 3900, totalOpen := 1600, uniqueOpen := 1200,
    totalClicked := 250, clicked := 180, unsubscribed := 8, spam := 0 }

/-- A completed plain "Daily Digest" (AM) campaign. -/
def exDDAM : TCampaign :=
  { name := "Daily Digest 10.15.25", status := "COMPLETED",
    sent := 4500, delivered := 4400, totalOpen := 1700, uniqueOpen := 1300,
    totalClicked := 260, clicked := 190, unsubscribed := 9, spam := 0 }

/-- A completed campaign matching neither the AM nor the PM pattern. -/
def exOther : TCampaign :=
  { name := "Weekly Recap 10.15.25", status := "COMPLETED",
    sent := 3000, delivered := 2900, totalOpen := 1000, uniqueOpen := 800,
    totalClicked := 150, clicked := 100, unsubscribed := 5, spam := 0 }

/-- A draft campaign (non-terminal status). -/
def exDraft : TCampaign :=
  { name := "Daily Digest 10.15.25", status := "DRAFT",
    sent := 4500, delivered := 0, totalOpen := 0, uniqueOpen := 0,
    totalClicked := 0, clicked := 0, unsubscribed := 0, spam := 0 }

/-- An all-zero campaign (`sends = 0`). -/
def exZero : TCampaign :=
  { name := "", status := "", sent := 0, delivered := 0, totalOpen := 0,
    uniqueOpen := 0, totalClicked := 0, clicked := 0, unsubscribed := 0,
    spam := 0 }

/-- A campaign with more opens than sends (open rate above 100%). -/
def exHot : TCampaign :=
  { name := "Daily Digest 10.15.25", status := "COMPLETED",
    sent := 200, delivered := 190, totalOpen := 300, uniqueOpen := 150,
    totalClicked := 60, clicked := 40, unsubscribed := 3, spam := 0 }

/-- A campaign for the 14th (off-target for a 10.15.25 search). -/
def exTOld : TCampaign :=
  { name := "Daily Digest 10.14.25", status := "COMPLETED",
    sent := 4200, delivered := 4100, totalOpen := 1500, uniqueOpen := 1100,
    totalClicked := 240, clicked := 170, unsubscribed := 7, spam := 0 }

/-- Error-free TinyEmail trace: the off-target campaign on page 0
    (`last = false`), the matching campaign on the last page 1. -/
def exTFetchOk : Nat → TResp := fun p =>
  if p = 0 then .ok [exTOld] false
  else if p = 1 then .ok [exDDAM] true
  else .err 404

/-- TinyEmail trace raising an exception on page 1. -/
def exTFetchErr : Nat → TResp := fun p =>
  if p = 0 then .ok [exDDAM] false else .exn

/-- A tagged post with no publish timestamp. -/
def exNoDate : BPost :=
  { publish_date := none, title := "No date",
    content_tags := ["newsletter"], stats := zeroStats }

/-! ### String-containment lemmas -/

theorem swith_iff : ∀ (n h : List Char), swith n h = true ↔ ∃ r, h = n ++ r
  | [], h => by simp [swith]
  | _ :: _, [] => by simp [swith]
  | a :: as, b :: bs => by
    simp only [swith, Bool.and_eq_true, beq_iff_eq, List.cons_append]
    rw [swith_iff as bs]
    constructor
    · rintro ⟨rfl, r, rfl⟩
      exact ⟨r, rfl⟩
    · rintro ⟨r, hr⟩
      injection hr with h1 h2
      subst h1; subst h2
      exact ⟨rfl, r, rfl⟩

theorem hsub_iff : ∀ (n h : List Char), hsub n h = true ↔ ∃ l r, h = l ++ n ++ r
  | n, [] => by
    simp only [hsub, List.isEmpty_iff]
    constructor
    · rintro rfl
      exact ⟨[], [], rfl⟩
    · rintro ⟨l, r, hr⟩
      rcases List.append_eq_nil.mp (List.append_eq_nil.mp hr.symm).1 with ⟨-, h2⟩
      exact h2
  | n, b :: bs => by
    simp only [hsub, Bool.or_eq_true]
    rw [swith_iff, hsub_iff n bs]
    constructor
    · rintro (⟨r, hr⟩ | ⟨l, r, hr⟩)
      · exact ⟨[], r, by simp [hr]⟩
      · exact ⟨b :: l, r, by simp [hr]⟩
    · rintro ⟨l, r, hr⟩
      cases l with
      | nil => exact Or.inl ⟨r, by simpa using hr⟩
      | cons x xs =>
        right
        injection hr with h1 h2
        exact ⟨xs, r, h2⟩

/-- Transitivity of the substring relation: if `a` occurs in `b` and `b`
    occurs in `hay` then `a` occurs in `hay`. -/
theorem strHas_trans {a b hay : String} (h1 : strHas b a = true)
    (h2 : strHas hay b = true) : strHas hay a = true := by
  unfold strHas at *
  rw [hsub_iff] at *
  obtain ⟨l1, r1, e1⟩ := h1
  obtain ⟨l2, r2, e2⟩ := h2
  refine ⟨l2 ++ l1, r1 ++ r2, ?_⟩
  rw [e2, e1]
  simp [List.append_assoc]

/-! ### TinyEmail classifier characterisations -/

theorem sepStep_eq (st : List TCampaign × List TCampaign) (c : TCampaign) :
    sepStep st c =
      if sepPMpred c then (st.1, st.2 ++ [c])
      else if sepAMpred c then (st.1 ++ [c], st.2)
      else st := by
  unfold sepStep sepPMpred sepAMpred
  by_cases h1 : c.status == "COMPLETED"
  · by_cases h2 : 100 < c.sent
    · by_cases h3 : (isDailyDigestPM c.name || isDedicatedCPM c.name) = true
      · simp [h1, h2, h3, Nat.not_le.mpr h2]
      · simp only [Bool.or_eq_true] at h3
        push_neg at h3
        obtain ⟨hdd, hcpm⟩ := h3
        by_cases h4 : strHas c.name "Daily Digest" = true <;>
          simp [h1, h2, hdd, hcpm, h4, Nat.not_le.mpr h2]
    · simp [h1, h2, Nat.le_of_not_lt h2]
  · simp [h1]

theorem sep_foldl (cs : List TCampaign)
    (st : List TCampaign × List TCampaign) :
    cs.foldl sepStep st =
      (st.1 ++ cs.filter sepAMpred, st.2 ++ cs.filter sepPMpred) := by
  induction cs generalizing st with
  | nil => simp
  | cons c rest ih =>
    rw [List.foldl_cons, ih, List.filter_cons, List.filter_cons, sepStep_eq]
    have hdisj : sepPMpred c = true → sepAMpred c = false := by
      unfold sepPMpred sepAMpred
      intro h
      simp only [Bool.and_eq_true, Bool.or_eq_true] at h
      rcases h.2 with hdd | hcpm
      · simp [hdd]
      · simp [hcpm]
    by_cases hpm : sepPMpred c = true
    · simp [hpm, hdisj hpm]
    · by_cases ham : sepAMpred c = true
      · simp [hpm, ham]
      · simp [hpm, ham]

theorem separate_eq (cs : List TCampaign) :
    separate_all_campaigns cs =
      (cs.filter sepAMpred, cs.filter sepPMpred) := by
  unfold separate_all_campaigns
  rw [sep_foldl]
  simp

theorem prev_foldl (cs : List TCampaign) (st : Nat × Nat) :
    cs.foldl prevStep st =
      (st.1 + ((cs.filter fun c => prevQual c && !prevIsPM c.name).map
          TCampaign.sent).sum,
       st.2 + ((cs.filter fun c => prevQual c && prevIsPM c.name).map
          TCampaign.sent).sum) := by
  induction cs generalizing st with
  | nil => simp
  | cons c rest ih =>
    rw [List.foldl_cons, ih, List.filter_cons, List.filter_cons]
    unfold prevStep prevQual
    by_cases h1 : (c.status == "COMPLETED" && decide (100 < c.sent)) = true
    · by_cases h2 : prevIsPM c.name = true
      · simp [h1, h2]
        omega
      · simp [h1, h2]
        omega
    · simp [h1]

theorem get_previous_sends_eq (cs : List TCampaign) :
    get_previous_sends cs =
      (((cs.filter fun c => prevQual c && !prevIsPM c.name).map
          TCampaign.sent).sum,
       ((cs.filter fun c => prevQual c && prevIsPM c.name).map
          TCampaign.sent).sum) := by
  unfold get_previous_sends
  rw [prev_foldl]
  simp

/-! ### Beehiiv page-scan lemmas -/

theorem bProcessPost_eq (tag gf : Bool) (td : Int) (st : List BPost × Nat)
    (p : BPost) :
    bProcessPost tag gf td st p =
      if bQualifies tag td p then
        ((if gf then st.1 ++ [p] else st.1), st.2 + p.stats.recipients)
      else st := by
  unfold bProcessPost bQualifies
  cases hpd : p.publish_date with
  | none => simp
  | some ts =>
    by_cases h0 : ts = 0
    · simp [h0]
    · by_cases hd : tsDay ts = td
      · by_cases hc : strHas p.title "Dedicated CPM" = true
        · simp [h0, hd, hc]
        · cases tag with
          | false => simp [h0, hd, hc]
          | true =>
            by_cases hn : is_newsletter_post p.content_tags = true <;>
              simp [h0, hd, hc, hn]
      · simp [h0, hd]

theorem bProcessPost_mem_mono {p : BPost} (tag gf : Bool) (td : Int)
    (st : List BPost × Nat) (c : BPost) (h : p ∈ st.1) :
    p ∈ (bProcessPost tag gf td st c).1 := by
  rw [bProcessPost_eq]
  by_cases hq : bQualifies tag td c = true
  · rw [if_pos hq]
    cases gf <;> simp [h]
  · rw [if_neg hq]
    exact h

theorem bProcessPost_mem_add (tag : Bool) (td : Int)
    (st : List BPost × Nat) (c : BPost) (hq : bQualifies tag td c = true) :
    c ∈ (bProcessPost tag true td st c).1 := by
  rw [bProcessPost_eq]
  simp [hq]

theorem bProcessPost_mem_inv {p : BPost} (tag gf : Bool) (td : Int)
    (st : List BPost × Nat) (c : BPost)
    (h : p ∈ (bProcessPost tag gf td st c).1) :
    p ∈ st.1 ∨ bQualifies tag td p = true := by
  rw [bProcessPost_eq] at h
  by_cases hq : bQualifies tag td c = true
  · rw [if_pos hq] at h
    cases gf with
    | false => exact Or.inl h
    | true =>
      rcases List.mem_append.mp h with h' | h'
      · exact Or.inl h'
      · simp only [List.mem_singleton] at h'
        subst h'
        exact Or.inr hq
  · rw [if_neg hq] at h
    exact Or.inl h

theorem bProcessPage_mem_mono {p : BPost} (tag gf : Bool) (td : Int)
    (posts : List BPost) (st : List BPost × Nat) (h : p ∈ st.1) :
    p ∈ (bProcessPage tag gf td posts st).1 := by
  induction posts generalizing st with
  | nil => exact h
  | cons c rest ih => exact ih _ (bProcessPost_mem_mono tag gf td st c h)

theorem bProcessPage_mem_add (tag : Bool) (td : Int) {c : BPost}
    (posts : List BPost) (st : List BPost × Nat) (hc : c ∈ posts)
    (hq : bQualifies tag td c = true) :
    c ∈ (bProcessPage tag true td posts st).1 := by
  induction posts generalizing st with
  | nil => cases hc
  | cons x rest ih =>
    rcases List.mem_cons.mp hc with rfl | hmem
    · exact bProcessPage_mem_mono tag true td rest _
        (bProcessPost_mem_add tag td st c hq)
    · exact ih _ hmem

theorem bProcessPage_mem_inv {p : BPost} (tag gf : Bool) (td : Int)
    (posts : List BPost) (st : List BPost × Nat)
    (h : p ∈ (bProcessPage tag gf td posts st).1) :
    p ∈ st.1 ∨ bQualifies tag td p = true := by
  induction posts generalizing st with
  | nil => exact Or.inl h
  | cons c rest ih =>
    rcases ih _ h with h' | h'
    · exact bProcessPost_mem_inv tag gf td st c h'
    · exact Or.inr h'

theorem bSearchLoop_ok_cont (fetch : Nat → BResp) (td : Int)
    (tag gf : Bool) (fuel page : Nat) (st : List BPost × Nat)
    {ps : List BPost} {tp : Nat} (hf : fetch page = .ok ps tp)
    (hne : ps ≠ []) (hlt : page < tp) :
    bSearchLoop fetch td tag gf (fuel + 1) page st =
      bSearchLoop fetch td tag gf fuel (page + 1)
        (bProcessPage tag gf td ps st) := by
  rw [bSearchLoop, hf]
  simp [List.isEmpty_iff, hne, Nat.not_le.mpr hlt]

theorem bSearchLoop_ok_last (fetch : Nat → BResp) (td : Int)
    (tag gf : Bool) (fuel page : Nat) (st : List BPost × Nat)
    {ps : List BPost} {tp : Nat} (hf : fetch page = .ok ps tp)
    (hne : ps ≠ []) (hle : tp ≤ page) :
    bSearchLoop fetch td tag gf (fuel + 1) page st =
      bProcessPage tag gf td ps st := by
  rw [bSearchLoop, hf]
  simp [List.isEmpty_iff, hne, hle]

theorem bSearchLoop_stop (fetch : Nat → BResp) (td : Int)
    (tag gf : Bool) (fuel page : Nat) (st : List BPost × Nat)
    (h : (∃ s, fetch page = .err s) ∨ fetch page = .exn) :
    bSearchLoop fetch td tag gf (fuel + 1) page st = st := by
  rcases h with ⟨s, hs⟩ | hx
  · rw [bSearchLoop, hs]
  · rw [bSearchLoop, hx]

/-- Completeness of the Beehiiv page loop: over an error-free trace that
    runs from `page` to the signalled last page `N`, every qualifying
    post of every visited page ends up in the result, and posts already
    accumulated are kept. -/
theorem bLoop_complete (fetch : Nat → BResp) (td : Int) (tag : Bool) :
    ∀ (fuel page : Nat) (st : List BPost × Nat) (N : Nat),
    page ≤ N → N < page + fuel →
    (∀ i, page ≤ i → i < N → ∃ ps tp, fetch i = .ok ps tp ∧ ps ≠ [] ∧ i < tp) →
    (∃ ps tp, fetch N = .ok ps tp ∧ ps ≠ [] ∧ tp ≤ N) →
    (∀ p, p ∈ st.1 → p ∈ (bSearchLoop fetch td tag true fuel page st).1) ∧
    (∀ i ps tp p, page ≤ i → i ≤ N → fetch i = .ok ps tp → p ∈ ps →
       bQualifies tag td p = true →
       p ∈ (bSearchLoop fetch td tag true fuel page st).1) := by
  intro fuel
  induction fuel with
  | zero =>
    intro page st N h1 h2 _ _
    exfalso
    omega
  | succ fuel ih =>
    intro page st N h1 h2 hok hlast
    by_cases hpN : page = N
    · subst hpN
      obtain ⟨ps, tp, hf, hne, hle⟩ := hlast
      rw [bSearchLoop_ok_last fetch td tag true fuel page st hf hne hle]
      constructor
      · intro p hp
        exact bProcessPage_mem_mono tag true td ps st hp
      · intro i ps' tp' p hip hiN hfi hmem hq
        have hiN' : i = page := by omega
        subst hiN'
        rw [hf] at hfi
        injection hfi with e1 _
        subst e1
        exact bProcessPage_mem_add tag td ps st hmem hq
    · have hlt : page < N := by omega
      obtain ⟨ps, tp, hf, hne, htp⟩ := hok page le_rfl hlt
      rw [bSearchLoop_ok_cont fetch td tag true fuel page st hf hne htp]
      have ihs := ih (page + 1) (bProcessPage tag true td ps st) N
        (by omega) (by omega)
        (fun i hi1 hi2 => hok i (by omega) hi2) hlast
      constructor
      · intro p hp
        exact ihs.1 p (bProcessPage_mem_mono tag true td ps st hp)
      · intro i ps' tp' p hip hiN hfi hmem hq
        by_cases hipage : i = page
        · subst hipage
          rw [hf] at hfi
          injection hfi with e1 _
          subst e1
          exact ihs.1 p (bProcessPage_mem_add tag td ps st hmem hq)
        · exact ihs.2 i ps' tp' p (by omega) hiN hfi hmem hq

/-- Completeness of the TinyEmail page loop: over an error-free trace
    whose `last` flag first appears on page `N`, every date-matching
    campaign of every visited page ends up in the result. -/
theorem tLoop_complete (fetch : Nat → TResp) (formats : List String) :
    ∀ (fuel page : Nat) (acc : List TCampaign) (N : Nat),
    page ≤ N → N < page + fuel →
    (∀ i, page ≤ i → i < N → ∃ content, fetch i = .ok content false) →
    (∃ content, fetch N = .ok content true) →
    (∀ c, c ∈ acc → c ∈ tSearchLoop fetch formats fuel page acc) ∧
    (∀ i content last c, page ≤ i → i ≤ N → fetch i = .ok content last →
       c ∈ content → tMatchesDate formats c.name = true →
       c ∈ tSearchLoop fetch formats fuel page acc) := by
  intro fuel
  induction fuel with
  | zero =>
    intro page acc N h1 h2 _ _
    exfalso
    omega
  | succ fuel ih =>
    intro page acc N h1 h2 hok hlast
    by_cases hpN : page = N
    · subst hpN
      obtain ⟨content, hf⟩ := hlast
      rw [tSearchLoop, hf]
      simp only [if_pos]
      constructor
      · intro c hc
        exact List.mem_append_left _ hc
      · intro i content' last' c hip hiN hfi hmem hq
        have : i = page := by omega
        subst this
        rw [hf] at hfi
        injection hfi with e1 _
        subst e1
        exact List.mem_append_right _ (List.mem_filter.mpr ⟨hmem, hq⟩)
    · have hlt : page < N := by omega
      obtain ⟨content, hf⟩ := hok page le_rfl hlt
      rw [tSearchLoop, hf]
      simp only [Bool.false_eq_true, if_false]
      have ihs := ih (page + 1)
        (acc ++ content.filter (fun c => tMatchesDate formats c.name)) N
        (by omega) (by omega)
        (fun i hi1 hi2 => hok i (by omega) hi2) hlast
      constructor
      · intro c hc
        exact ihs.1 c (List.mem_append_left _ hc)
      · intro i content' last' c hip hiN hfi hmem hq
        by_cases hipage : i = page
        · subst hipage
          rw [hf] at hfi
          injection hfi with e1 _
          subst e1
          exact ihs.1 c
            (List.mem_append_right _ (List.mem_filter.mpr ⟨hmem, hq⟩))
        · exact ihs.2 i content' last' c (by omega) hiN hfi hmem hq

/-- Running the Beehiiv page loop over `k` non-final successful pages is
    the reference accumulation `bRunPages`. -/
theorem bLoop_run (fetch : Nat → BResp) (td : Int) (tag gf : Bool) :
    ∀ (k fuel page : Nat) (st : List BPost × Nat),
    (∀ i, i < k →
       ∃ ps tp, fetch (page + i) = .ok ps tp ∧ ps ≠ [] ∧ page + i < tp) →
    bSearchLoop fetch td tag gf (k + fuel) page st =
      bSearchLoop fetch td tag gf fuel (page + k)
        (bRunPages fetch td tag gf page k st) := by
  intro k
  induction k with
  | zero =>
    intro fuel page st _
    simp [bRunPages]
  | succ k ih =>
    intro fuel page st h
    obtain ⟨ps, tp, hf, hne, htp⟩ := h 0 (by omega)
    rw [Nat.add_zero] at hf htp
    have e1 : k + 1 + fuel = (k + fuel) + 1 := by omega
    rw [e1, bSearchLoop_ok_cont fetch td tag gf (k + fuel) page st hf hne htp]
    have e2 : page + (k + 1) = (page + 1) + k := by omega
    have e3 : bRunPages fetch td tag gf page (k + 1) st =
        bRunPages fetch td tag gf (page + 1) k
          (bProcessPage tag gf td ps st) := by
      rw [bRunPages, hf]
      rfl
    rw [e2, e3]
    exact ih fuel (page + 1) (bProcessPage tag gf td ps st)
      (fun i hi => by
        obtain ⟨ps', tp', hf', hne', htp'⟩ := h (i + 1) (by omega)
        have e : page + (i + 1) = page + 1 + i := by omega
        rw [e] at hf' htp'
        exact ⟨ps', tp', hf', hne', htp'⟩)

/-- Running the TinyEmail page loop over `k` non-final successful pages
    is the reference accumulation `tRunPages`. -/
theorem tLoop_run (fetch : Nat → TResp) (formats : List String) :
    ∀ (k fuel page : Nat) (acc : List TCampaign),
    (∀ i, i < k → ∃ content, fetch (page + i) = .ok content false) →
    tSearchLoop fetch formats (k + fuel) page acc =
      tSearchLoop fetch formats fuel (page + k)
        (tRunPages fetch formats page k acc) := by
  intro k
  induction k with
  | zero =>
    intro fuel page acc _
    simp [tRunPages]
  | succ k ih =>
    intro fuel page acc h
    obtain ⟨content, hf⟩ := h 0 (by omega)
    rw [Nat.add_zero] at hf
    have e1 : k + 1 + fuel = (k + fuel) + 1 := by omega
    rw [e1, tSearchLoop, hf]
    simp only [Bool.false_eq_true, if_false]
    have e2 : page + (k + 1) = (page + 1) + k := by omega
    have e3 : tRunPages fetch formats page (k + 1) acc =
        tRunPages fetch formats (page + 1) k
          (acc ++ content.filter (fun c => tMatchesDate formats c.name)) := by
      rw [tRunPages, hf]
      rfl
    rw [e2, e3]
    exact ih fuel (page + 1) _
      (fun i hi => by
        obtain ⟨content', hf'⟩ := h (i + 1) (by omega)
        have e : page + (i + 1) = page + 1 + i := by omega
        rw [e] at hf'
        exact ⟨content', hf'⟩)

/-- An empty 200 page stops the Beehiiv loop, returning the
    accumulator. -/
theorem bSearchLoop_ok_empty (fetch : Nat → BResp) (td : Int)
    (tag gf : Bool) (fuel page : Nat) (st : List BPost × Nat)
    {ps : List BPost} {tp : Nat} (hf : fetch page = .ok ps tp)
    (hemp : ps = []) :
    bSearchLoop fetch td tag gf (fuel + 1) page st = st := by
  rw [bSearchLoop, hf]
  simp [hemp]

/-- Members of the Beehiiv page-loop result are accumulated members or
    qualifying posts. -/
theorem bSearchLoop_mem_inv (fetch : Nat → BResp) (td : Int)
    (tag gf : Bool) {p : BPost} :
    ∀ (fuel page : Nat) (st : List BPost × Nat),
    p ∈ (bSearchLoop fetch td tag gf fuel page st).1 →
    p ∈ st.1 ∨ bQualifies tag td p = true := by
  intro fuel
  induction fuel with
  | zero =>
    intro page st h
    exact Or.inl h
  | succ fuel ih =>
    intro page st h
    cases hf : fetch page with
    | ok ps tp =>
      by_cases hemp : ps = []
      · rw [bSearchLoop_ok_empty fetch td tag gf fuel page st hf hemp] at h
        exact Or.inl h
      · by_cases hle : tp ≤ page
        · rw [bSearchLoop_ok_last fetch td tag gf fuel page st hf hemp hle] at h
          exact bProcessPage_mem_inv tag gf td ps st h
        · rw [bSearchLoop_ok_cont fetch td tag gf fuel page st hf hemp
            (by omega)] at h
          rcases ih (page + 1) _ h with h' | h'
          · exact bProcessPage_mem_inv tag gf td ps st h'
          · exact Or.inr h'
    | err s =>
      rw [bSearchLoop_stop fetch td tag gf fuel page st (Or.inl ⟨s, hf⟩)] at h
      exact Or.inl h
    | exn =>
      rw [bSearchLoop_stop fetch td tag gf fuel page st (Or.inr hf)] at h
      exact Or.inl h

/-! ### Rate-calculator helper lemmas -/

theorem pyRound_zero (d : Nat) : pyRound d 0 = 0 := by
  simp [pyRound]

/-! ### Claim theorems -/

/-- Claim C2 (falsity of the original statement): the completed,
    high-volume campaign named "Daily Digest_PM 10.15.25" carries the
    `_PM` marker — one of the five PM markers of the previous-day
    aggregation — yet `separate_all_campaigns` classifies it into the AM
    list, not the PM list. -/
theorem claim_c2_counterexample :
    prevIsPM exPMu.name = true ∧
    exPMu.status = "COMPLETED" ∧ 100 < exPMu.sent ∧
    separate_all_campaigns [exPMu] = ([exPMu], []) := by
  decide

/-- Claim C2 (amended): every completed campaign with more than 100
    sends whose name matches one of the five PM markers is counted into
    the PM component of the previous-day sends baseline; in the
    target-day classification, the markers "Daily Digest PM",
    standalone " PM " with "Daily Digest" and without "CPM", and
    "Dedicated CPM" classify into the PM segment (the " PM-" and "_PM"
    markers are not consulted there). -/
theorem claim_c2_pm_markers :
    (∀ (cs : List TCampaign) (c : TCampaign), c ∈ cs →
       c.status = "COMPLETED" → 100 < c.sent → prevIsPM c.name = true →
       c.sent ≤ (get_previous_sends cs).2) ∧
    (∀ (cs : List TCampaign) (c : TCampaign), c ∈ cs →
       c.status = "COMPLETED" → 100 < c.sent →
       (strHas c.name "Daily Digest PM" = true ∨
        (strHas c.name " PM " = true ∧ strHas c.name "Daily Digest" = true ∧
         strHas c.name "CPM" = false) ∨
        strHas c.name "Dedicated CPM" = true) →
       c ∈ (separate_all_campaigns cs).2) := by
  constructor
  · intro cs c hmem hst hsent hpm
    rw [get_previous_sends_eq]
    have hq : prevQual c = true := by
      simp [prevQual, hst, hsent]
    have hc : c ∈ cs.filter fun x => prevQual x && prevIsPM x.name :=
      List.mem_filter.mpr ⟨hmem, by simp [hq, hpm]⟩
    have hs : c.sent ∈ (cs.filter fun x =>
        prevQual x && prevIsPM x.name).map TCampaign.sent :=
      List.mem_map.mpr ⟨c, hc, rfl⟩
    exact List.single_le_sum (fun x _ => Nat.zero_le x) _ hs
  · intro cs c hmem hst hsent hmk
    rw [separate_eq]
    refine List.mem_filter.mpr ⟨hmem, ?_⟩
    have hpm : (isDailyDigestPM c.name || isDedicatedCPM c.name) = true := by
      rcases hmk with h | ⟨h1, h2, h3⟩ | h
      · simp [isDailyDigestPM, h]
      · simp [isDailyDigestPM, h1, h2, h3]
      · simp [isDedicatedCPM, h]
    simp [sepPMpred, hst, hsent, hpm]

/-- Claim C3: PM rules run before the AM default — a name containing
    "Daily Digest PM" classifies PM (and not AM) although it also
    contains "Daily Digest"; a "Daily Digest" name with no PM/CPM
    markers classifies AM; a name matching neither pattern is excluded
    from both segments. -/
theorem claim_c3_pm_precedence :
    (∀ (cs : List TCampaign) (c : TCampaign), c ∈ cs →
       c.status = "COMPLETED" → 100 < c.sent →
       strHas c.name "Daily Digest PM" = true →
       strHas c.name "Daily Digest" = true ∧
       c ∈ (separate_all_campaigns cs).2 ∧
       c ∉ (separate_all_campaigns cs).1) ∧
    (∀ (cs : List TCampaign) (c : TCampaign), c ∈ cs →
       c.status = "COMPLETED" → 100 < c.sent →
       strHas c.name "Daily Digest" = true →
       strHas c.name " PM " = false → strHas c.name "CPM" = false →
       strHas c.name "Daily Digest PM" = false →
       c ∈ (separate_all_campaigns cs).1) ∧
    (∀ (cs : List TCampaign) (c : TCampaign), c ∈ cs →
       strHas c.name "Daily Digest" = false → strHas c.name "CPM" = false →
       c ∉ (separate_all_campaigns cs).1 ∧
       c ∉ (separate_all_campaigns cs).2) := by
  refine ⟨?_, ?_, ?_⟩
  · intro cs c hmem hst hsent hddpm
    have hdd : strHas c.name "Daily Digest" = true :=
      strHas_trans (by decide) hddpm
    have hpm : isDailyDigestPM c.name = true := by
      simp [isDailyDigestPM, hddpm]
    refine ⟨hdd, ?_, ?_⟩
    · rw [separate_eq]
      refine List.mem_filter.mpr ⟨hmem, ?_⟩
      simp [sepPMpred, hst, hsent, hpm]
    · rw [separate_eq]
      intro hc
      have := (List.mem_filter.mp hc).2
      simp [sepAMpred, hpm] at this
  · intro cs c hmem hst hsent hdd hpmtok hcpm hddpm
    have hded : strHas c.name "Dedicated CPM" = false := by
      by_contra h
      rw [Bool.not_eq_false] at h
      rw [strHas_trans (by decide) h] at hcpm
      cases hcpm
    rw [separate_eq]
    refine List.mem_filter.mpr ⟨hmem, ?_⟩
    simp [sepAMpred, sepPMpred, isDailyDigestPM, isDedicatedCPM,
      hst, hsent, hdd, hpmtok, hcpm, hddpm, hded]
  · intro cs c hmem hdd hcpm
    have hddpm : strHas c.name "Daily Digest PM" = false := by
      by_contra h
      rw [Bool.not_eq_false] at h
      rw [strHas_trans (by decide) h] at hdd
      cases hdd
    have hded : strHas c.name "Dedicated CPM" = false := by
      by_contra h
      rw [Bool.not_eq_false] at h
      rw [strHas_trans (by decide) h] at hcpm
      cases hcpm
    rw [separate_eq]
    constructor
    · intro hc
      have := (List.mem_filter.mp hc).2
      simp [sepAMpred, hdd] at this
    · intro hc
      have := (List.mem_filter.mp hc).2
      simp [sepPMpred, isDailyDigestPM, isDedicatedCPM,
        hddpm, hdd, hcpm, hded] at this

/-- Claim C4: both rate calculators are total — with zero sends every
    rate is 0 (no division fault), and with positive sends every
    percentage rate equals `round(numerator / sends * 100, 2)` with no
    cap at 100. -/
theorem claim_c4_rates_total :
    ∀ (c : TCampaign) (bn bn2 seg : String) (td lg nowDay : Int)
      (p : BPost) (prev : Nat),
    (c.sent = 0 →
      (create_metric c bn td seg lg).deliveredRate = 0 ∧
      (create_metric c bn td seg lg).openRate = 0 ∧
      (create_metric c bn td seg lg).uniqueOpenRate = 0 ∧
      (create_metric c bn td seg lg).ctr = 0 ∧
      (create_metric c bn td seg lg).uctr = 0 ∧
      (create_metric c bn td seg lg).unsubscribeRate = 0) ∧
    (0 < c.sent →
      (create_metric c bn td seg lg).deliveredRate
        = pyRound 2 (((c.delivered : ℚ) / c.sent) * 100) ∧
      (create_metric c bn td seg lg).openRate
        = pyRound 2 (((c.totalOpen : ℚ) / c.sent) * 100) ∧
      (create_metric c bn td seg lg).uniqueOpenRate
        = pyRound 2 (((c.uniqueOpen : ℚ) / c.sent) * 100) ∧
      (create_metric c bn td seg lg).ctr
        = pyRound 2 (((c.totalClicked : ℚ) / c.sent) * 100) ∧
      (create_metric c bn td seg lg).uctr
        = pyRound 2 (((c.clicked : ℚ) / c.sent) * 100)) ∧
    (p.stats.recipients = 0 →
      (extract_metrics nowDay p bn2 prev).deliveredRate = 0 ∧
      (extract_metrics nowDay p bn2 prev).openRate = 0 ∧
      (extract_metrics nowDay p bn2 prev).uniqueOpenRate = 0 ∧
      (extract_metrics nowDay p bn2 prev).ctr = 0 ∧
      (extract_metrics nowDay p bn2 prev).uctr = 0 ∧
      (extract_metrics nowDay p bn2 prev).unsubscribeRate = 0) ∧
    (0 < p.stats.recipients →
      (extract_metrics nowDay p bn2 prev).deliveredRate
        = pyRound 2 (((p.stats.delivered : ℚ) / p.stats.recipients) * 100) ∧
      (extract_metrics nowDay p bn2 prev).openRate
        = pyRound 2 (((p.stats.opens : ℚ) / p.stats.recipients) * 100) ∧
      (extract_metrics nowDay p bn2 prev).uniqueOpenRate
        = pyRound 2 (((p.stats.unique_opens : ℚ) / p.stats.recipients) * 100) ∧
      (extract_metrics nowDay p bn2 prev).ctr
        = pyRound 2 (((p.stats.clicks : ℚ) / p.stats.recipients) * 100) ∧
      (extract_metrics nowDay p bn2 prev).uctr
        = pyRound 2 (((p.stats.unique_clicks : ℚ) / p.stats.recipients)
            * 100)) := by
  intro c bn bn2 seg td lg nowDay p prev
  refine ⟨?_, ?_, ?_, ?_⟩ <;> intro h <;>
    simp [create_metric, extract_metrics, h, pyRound_zero]

/-- Claim C5: the unsubscribe-rate asymmetry — with positive sends the
    Beehiiv path emits `round(unsubscribes / sends, 4)` (an unscaled
    fraction) while the TinyEmail path emits
    `round(unsubscribes / sends * 100, 4)` (a percentage); both round
    the unsubscribe rate to 4 decimal places while the other rates use
    2 decimal places. -/
theorem claim_c5_unsub_asymmetry :
    ∀ (c : TCampaign) (bn bn2 seg : String) (td lg nowDay : Int)
      (p : BPost) (prev : Nat),
    (0 < p.stats.recipients →
      (extract_metrics nowDay p bn2 prev).unsubscribeRate
        = pyRound 4 ((p.stats.unsubscribes : ℚ) / p.stats.recipients) ∧
      (extract_metrics nowDay p bn2 prev).deliveredRate
        = pyRound 2 (((p.stats.delivered : ℚ) / p.stats.recipients) * 100) ∧
      (extract_metrics nowDay p bn2 prev).openRate
        = pyRound 2 (((p.stats.opens : ℚ) / p.stats.recipients) * 100) ∧
      (extract_metrics nowDay p bn2 prev).uniqueOpenRate
        = pyRound 2 (((p.stats.unique_opens : ℚ) / p.stats.recipients) * 100) ∧
      (extract_metrics nowDay p bn2 prev).ctr
        = pyRound 2 (((p.stats.clicks : ℚ) / p.stats.recipients) * 100) ∧
      (extract_metrics nowDay p bn2 prev).uctr
        = pyRound 2 (((p.stats.unique_clicks : ℚ) / p.stats.recipients)
            * 100)) ∧
    (0 < c.sent →
      (create_metric c bn td seg lg).unsubscribeRate
        = pyRound 4 (((c.unsubscribed : ℚ) / c.sent) * 100) ∧
      (create_metric c bn td seg lg).deliveredRate
        = pyRound 2 (((c.delivered : ℚ) / c.sent) * 100) ∧
      (create_metric c bn td seg lg).openRate
        = pyRound 2 (((c.totalOpen : ℚ) / c.sent) * 100) ∧
      (create_metric c bn td seg lg).uniqueOpenRate
        = pyRound 2 (((c.uniqueOpen : ℚ) / c.sent) * 100) ∧
      (create_metric c bn td seg lg).ctr
        = pyRound 2 (((c.totalClicked : ℚ) / c.sent) * 100) ∧
      (create_metric c bn td seg lg).uctr
        = pyRound 2 (((c.clicked : ℚ) / c.sent) * 100)) := by
  intro c bn bn2 seg td lg nowDay p prev
  constructor <;> intro h <;>
    simp [create_metric, extract_metrics, h]

/-- Claim C7 (falsity of the original statement): a date-matching post
    titled "Dedicated CPM 10.15.25" on the no-tag-filter brand
    "News Flash" is dropped by the search — the CPM exclusion is not
    limited to the tag-filtered path. -/
theorem claim_c7_counterexample :
    no_tag_brands.contains "News Flash" = true ∧
    strHas exCPM.title "Dedicated CPM" = true ∧
    exFetchCPM 1 = BResp.ok [exCPM] 1 ∧
    get_posts_for_date ["News Flash"] "News Flash" exFetchCPM 100 true
      = ([], 0) := by
  decide

/-- Claim C7 (amended): the "Dedicated CPM" title exclusion applies on
    both code paths — for every tag-filter setting, a post whose title
    contains "Dedicated CPM" leaves the page-scan state unchanged. -/
theorem claim_c7_cpm_both_paths :
    ∀ (tag gf : Bool) (td : Int) (st : List BPost × Nat) (p : BPost),
    strHas p.title "Dedicated CPM" = true →
    bProcessPost tag gf td st p = st := by
  intro tag gf td st p h
  rw [bProcessPost_eq]
  have hq : bQualifies tag td p = false := by
    unfold bQualifies
    cases p.publish_date with
    | none => rfl
    | some ts => simp [h]
  rw [hq]
  simp

/-- Claim C9 (falsity of the original statement): the writer truncates
    the delivered rate to an integer — the canonical record carries
    90.64 but the stored value is 90. -/
theorem claim_c9_counterexample :
    exRec9.deliveredRate = 9064 / 100 ∧
    (write_metrics exRec9).delivered = 90 ∧
    ((write_metrics exRec9).delivered : ℚ) ≠ exRec9.deliveredRate := by
  refine ⟨?_, ?_, ?_⟩
  · norm_num [exRec9, extract_metrics, exPost9, pyRound]
  · norm_num [write_metrics, exRec9, extract_metrics, exPost9, pyRound,
      pyInt]
    decide
  · norm_num [write_metrics, exRec9, extract_metrics, exPost9, pyRound,
      pyInt]
    rw [show Int.tdiv 2266 25 = (90 : ℤ) from by decide]
    norm_num

/-- Claim C9 (amended): the writer maps every rate field except the
    delivered rate into the store without change of value; the
    delivered rate alone is truncated to its integer part. -/
theorem claim_c9_writer_rates :
    ∀ r : MetricRecord,
    (write_metrics r).open_rate = r.openRate ∧
    (write_metrics r).unique_open_rate = r.uniqueOpenRate ∧
    (write_metrics r).ctr = r.ctr ∧
    (write_metrics r).uctr = r.uctr ∧
    (write_metrics r).unsubscribe_rate = r.unsubscribeRate ∧
    (write_metrics r).delivered = pyInt r.deliveredRate := by
  intro r
  exact ⟨rfl, rfl, rfl, rfl, rfl, rfl⟩

/-- Claim C6 (falsity of the original statement): a confirmed,
    date-matching, tagged Beehiiv post with only 50 recipients is
    collected and counted — the Beehiiv path applies no minimum
    send-volume threshold. -/
theorem claim_c6_counterexample :
    exSmall.stats.recipients ≤ 100 ∧
    get_posts_for_date ["Alpha"] "Alpha" exFetchSmall 100 true
      = ([exSmall], 50) := by
  decide

/-- Claim C6 (amended): the TinyEmail collector filters every campaign
    to `status == "COMPLETED"` and `sends > 100` before classification —
    both in the target-day split and in the previous-day baseline —
    while the Beehiiv collector delegates the status filter to the
    vendor query (`status=confirmed` request parameter) and applies no
    send-volume threshold: a qualifying post is collected whatever its
    recipient count. -/
theorem claim_c6_volume_status_filter :
    (∀ (cs : List TCampaign) (c : TCampaign), c ∈ cs →
       (c.status ≠ "COMPLETED" ∨ c.sent ≤ 100) →
       c ∉ (separate_all_campaigns cs).1 ∧
       c ∉ (separate_all_campaigns cs).2) ∧
    (∀ (st : Nat × Nat) (c : TCampaign),
       (c.status ≠ "COMPLETED" ∨ c.sent ≤ 100) →
       prevStep st c = st) ∧
    (∀ (tag gf : Bool) (td : Int) (st : List BPost × Nat) (p : BPost),
       bQualifies tag td p = true →
       bProcessPost tag gf td st p
         = ((if gf then st.1 ++ [p] else st.1),
            st.2 + p.stats.recipients)) := by
  refine ⟨?_, ?_, ?_⟩
  · intro cs c hmem hbad
    have hfail : ∀ b : Bool,
        (c.status == "COMPLETED" && decide (100 < c.sent) && b) = false := by
      intro b
      rcases hbad with h | h
      · simp [h]
      · simp [Nat.not_lt.mpr h]
    rw [separate_eq]
    constructor
    · intro hc
      have h2 := (List.mem_filter.mp hc).2
      unfold sepAMpred at h2
      rw [show (c.status == "COMPLETED" && decide (100 < c.sent) &&
          !(isDailyDigestPM c.name || isDedicatedCPM c.name) &&
          strHas c.name "Daily Digest") =
          (c.status == "COMPLETED" && decide (100 < c.sent) &&
          (!(isDailyDigestPM c.name || isDedicatedCPM c.name) &&
          strHas c.name "Daily Digest")) from by
        simp [Bool.and_assoc]] at h2
      rw [hfail] at h2
      cases h2
    · intro hc
      have h2 := (List.mem_filter.mp hc).2
      unfold sepPMpred at h2
      rw [hfail] at h2
      cases h2
  · intro st c hbad
    unfold prevStep
    rcases hbad with h | h
    · simp [h]
    · simp [Nat.not_lt.mpr h]
  · intro tag gf td st p hq
    rw [bProcessPost_eq, if_pos hq]

/-- Claim C1 (falsity of the original statement): on the trace
    `exFetchC1` the loop stops at the page-2 network exception — a stop
    cause outside the four listed conditions (no last-page signal, no
    empty page, the 50-page cap not reached, no error status returned) —
    and the qualifying on-target post sitting on page 3 is never
    returned. -/
theorem claim_c1_counterexample :
    exFetchC1 1 = BResp.ok [exPostOld] 3 ∧
    exFetchC1 2 = BResp.exn ∧
    exFetchC1 3 = BResp.ok [exPostNew] 3 ∧
    bQualifies true 100 exPostNew = true ∧
    get_posts_for_date ["Alpha"] "Alpha" exFetchC1 100 true = ([], 0) := by
  decide

/-- Claim C1 (amended): over an error-free trace, neither vendor's page
    loop terminates because a page's dates diverge from the target —
    running to the vendor's last-page signal within the page cap, the
    search returns every qualifying item whose date matches the target,
    wherever it sits in the trace (the loop stops only on the four
    listed conditions or on a failed request: any non-success status or
    a network exception). -/
theorem claim_c1_search_completeness :
    (∀ (pubs : List String) (brand : String) (fetch : Nat → BResp)
       (td : Int) (N : Nat),
       pubs.contains brand = true → 1 ≤ N → N ≤ 50 →
       (∀ i, 1 ≤ i → i < N →
          ∃ ps tp, fetch i = .ok ps tp ∧ ps ≠ [] ∧ i < tp) →
       (∃ ps tp, fetch N = .ok ps tp ∧ ps ≠ [] ∧ tp ≤ N) →
       ∀ i ps tp p, 1 ≤ i → i ≤ N → fetch i = .ok ps tp → p ∈ ps →
         bQualifies (!no_tag_brands.contains brand) td p = true →
         p ∈ (get_posts_for_date pubs brand fetch td true).1) ∧
    (∀ (fetch : Nat → TResp) (target : PyDate) (N : Nat),
       N < 20 →
       (∀ i, i < N → ∃ content, fetch i = .ok content false) →
       (∃ content, fetch N = .ok content true) →
       ∀ i content last c, i ≤ N → fetch i = .ok content last →
         c ∈ content → tMatchesDate (dateFormats target) c.name = true →
         c ∈ get_campaigns_for_date fetch target) := by
  constructor
  · intro pubs brand fetch td N hbrand hN1 hN50 hok hlast i ps tp p hi1 hiN
      hfi hmem hq
    unfold get_posts_for_date
    rw [if_pos hbrand]
    exact (bLoop_complete fetch td (!no_tag_brands.contains brand) 50 1
      ([], 0) N hN1 (by omega) hok hlast).2 i ps tp p hi1 hiN hfi hmem hq
  · intro fetch target N hN20 hok hlast i content last c hiN hfi hmem hq
    unfold get_campaigns_for_date
    exact (tLoop_complete fetch (dateFormats target) 20 0 [] N
      (Nat.zero_le N) (by omega) (fun j _ hj => hok j hj) hlast).2
      i content last c (Nat.zero_le i) hiN hfi hmem hq

/-- Claim C8: a failed page request is never fatal — after `k`
    successful non-final pages, an error status or exception on the next
    page makes either vendor's search return exactly the accumulation of
    the pages already processed; and a brand missing from the Beehiiv
    publications catalog yields an empty list with aggregate count 0. -/
theorem claim_c8_partial_results :
    (∀ (pubs : List String) (brand : String) (fetch : Nat → BResp)
       (td : Int) (gf : Bool) (k : Nat),
       pubs.contains brand = true → k < 50 →
       (∀ i, i < k →
          ∃ ps tp, fetch (1 + i) = .ok ps tp ∧ ps ≠ [] ∧ 1 + i < tp) →
       ((∃ s, fetch (1 + k) = .err s) ∨ fetch (1 + k) = .exn) →
       get_posts_for_date pubs brand fetch td gf =
         bRunPages fetch td (!no_tag_brands.contains brand) gf 1 k
           ([], 0)) ∧
    (∀ (pubs : List String) (brand : String) (fetch : Nat → BResp)
       (td : Int) (gf : Bool),
       pubs.contains brand = false →
       get_posts_for_date pubs brand fetch td gf = ([], 0)) ∧
    (∀ (fetch : Nat → TResp) (target : PyDate) (k : Nat),
       k < 20 →
       (∀ i, i < k → ∃ content, fetch i = .ok content false) →
       ((∃ s, fetch k = .err s) ∨ fetch k = .exn) →
       get_campaigns_for_date fetch target =
         tRunPages fetch (dateFormats target) 0 k []) := by
  refine ⟨?_, ?_, ?_⟩
  · intro pubs brand fetch td gf k hbrand hk hok herr
    unfold get_posts_for_date
    rw [if_pos hbrand]
    have e : (50 : Nat) = k + (50 - k) := by omega
    rw [e, bLoop_run fetch td (!no_tag_brands.contains brand) gf k (50 - k)
      1 ([], 0) hok]
    obtain ⟨m, hm⟩ : ∃ m, 50 - k = m + 1 := ⟨50 - k - 1, by omega⟩
    rw [hm, bSearchLoop_stop fetch td (!no_tag_brands.contains brand) gf m
      (1 + k) _ herr]
  · intro pubs brand fetch td gf hbrand
    unfold get_posts_for_date
    rw [hbrand]
    simp
  · intro fetch target k hk hok herr
    unfold get_campaigns_for_date
    have e : (20 : Nat) = k + (20 - k) := by omega
    have hok' : ∀ i, i < k →
        ∃ content, fetch (0 + i) = .ok content false := by
      intro i hi
      simpa using hok i hi
    rw [e, tLoop_run fetch (dateFormats target) k (20 - k) 0 [] hok']
    obtain ⟨m, hm⟩ : ∃ m, 20 - k = m + 1 := ⟨20 - k - 1, by omega⟩
    rw [hm]
    rcases herr with ⟨s, hs⟩ | hx
    · rw [tSearchLoop]
      simp only [Nat.zero_add]
      rw [hs]
    · rw [tSearchLoop]
      simp only [Nat.zero_add]
      rw [hx]

/-- Claim C10: every post returned by the Beehiiv date-window search has
    a truthy `publish_date`, so the timestamp-to-date conversion of
    `extract_metrics` is well defined on it and the `datetime.now()`
    fallback is unreachable; posts with a falsy publish date contribute
    neither to the returned posts nor to the aggregate count. -/
theorem claim_c10_publish_date_present :
    (∀ (pubs : List String) (brand : String) (fetch : Nat → BResp)
       (td : Int) (gf : Bool) (p : BPost),
       p ∈ (get_posts_for_date pubs brand fetch td gf).1 →
       ∃ ts, p.publish_date = some ts ∧ ts ≠ 0 ∧
         ∀ nowDay bn prev,
           (extract_metrics nowDay p bn prev).dateDay = tsDay ts) ∧
    (∀ (tag gf : Bool) (td : Int) (st : List BPost × Nat) (p : BPost),
       p.publish_date = none ∨ p.publish_date = some 0 →
       bProcessPost tag gf td st p = st) := by
  constructor
  · intro pubs brand fetch td gf p hp
    unfold get_posts_for_date at hp
    by_cases hbrand : pubs.contains brand = true
    · rw [if_pos hbrand] at hp
      have hq := bSearchLoop_mem_inv fetch td
        (!no_tag_brands.contains brand) gf 50 1 ([], 0) hp
      rcases hq with h | h
      · cases h
      · unfold bQualifies at h
        cases hpd : p.publish_date with
        | none =>
          rw [hpd] at h
          cases h
        | some ts =>
          rw [hpd] at h
          simp only [Bool.and_eq_true, bne_iff_ne, ne_eq,
            beq_iff_eq] at h
          refine ⟨ts, rfl, h.1.1.1, ?_⟩
          intro nowDay bn prev
          unfold extract_metrics
          rw [hpd]
          simp [h.1.1.1]
    · simp only [Bool.not_eq_true] at hbrand
      rw [hbrand] at hp
      simp at hp
  · intro tag gf td st p hpd
    unfold bProcessPost
    rcases hpd with h | h <;> rw [h]
    simp

/-! ### Witnesses: the claim theorems applied at concrete inputs -/

/-- Witness for claim C1: on the error-free trace `exFetchOk`, the
    qualifying post on the last page 3 is found despite the two
    off-target pages before it; likewise for the TinyEmail trace. -/
theorem claim_c1_search_completeness_witness :
    exPostNew ∈ (get_posts_for_date ["Alpha"] "Alpha" exFetchOk 100 true).1 ∧
    exDDAM ∈ get_campaigns_for_date exTFetchOk ⟨10, 15, 2025⟩ := by
  constructor
  · exact claim_c1_search_completeness.1 ["Alpha"] "Alpha" exFetchOk 100 3
      (by decide) (by decide) (by decide)
      (fun i h1 h2 => by
        interval_cases i
        · exact ⟨[exPostOld], 3, by decide, by decide, by decide⟩
        · exact ⟨[exPostOld], 3, by decide, by decide, by decide⟩)
      ⟨[exPostNew], 3, by decide, by decide, by decide⟩
      3 [exPostNew] 3 exPostNew (by decide) (by decide) (by decide)
      (by decide) (by decide)
  · exact claim_c1_search_completeness.2 exTFetchOk ⟨10, 15, 2025⟩ 1
      (by decide)
      (fun i h => by
        interval_cases i
        · exact ⟨[exTOld], by decide⟩)
      ⟨[exDDAM], by decide⟩
      1 [exDDAM] true exDDAM (by decide) (by decide) (by decide) (by decide)

/-- Witness for claim C2: the `_PM`-marked campaign is counted into the
    PM baseline, and the "Daily Digest PM" campaign lands in the PM list
    of the target-day split. -/
theorem claim_c2_pm_markers_witness :
    exPMu.sent ≤ (get_previous_sends [exPMu]).2 ∧
    exDDPM ∈ (separate_all_campaigns [exDDPM]).2 := by
  constructor
  · exact claim_c2_pm_markers.1 [exPMu] exPMu (by decide) (by decide)
      (by decide) (by decide)
  · exact claim_c2_pm_markers.2 [exDDPM] exDDPM (by decide) (by decide)
      (by decide) (Or.inl (by decide))

/-- Witness for claim C3 at the three concrete campaigns. -/
theorem claim_c3_pm_precedence_witness :
    (strHas exDDPM.name "Daily Digest" = true ∧
     exDDPM ∈ (separate_all_campaigns [exDDPM]).2 ∧
     exDDPM ∉ (separate_all_campaigns [exDDPM]).1) ∧
    exDDAM ∈ (separate_all_campaigns [exDDAM]).1 ∧
    (exOther ∉ (separate_all_campaigns [exOther]).1 ∧
     exOther ∉ (separate_all_campaigns [exOther]).2) := by
  refine ⟨?_, ?_, ?_⟩
  · exact claim_c3_pm_precedence.1 [exDDPM] exDDPM (by decide) (by decide)
      (by decide) (by decide)
  · exact claim_c3_pm_precedence.2.1 [exDDAM] exDDAM (by decide) (by decide)
      (by decide) (by decide) (by decide) (by decide) (by decide)
  · exact claim_c3_pm_precedence.2.2 [exOther] exOther (by decide)
      (by decide) (by decide)

/-- Witness for claim C4: zero sends yield a zero open rate, and 300
    opens over 200 sends yield an uncapped 150% open rate. -/
theorem claim_c4_rates_total_witness :
    (create_metric exZero "B" 0 "AM" 0).openRate = 0 ∧
    (create_metric exHot "B" 0 "AM" 0).openRate
      = pyRound 2 (((exHot.totalOpen : ℚ) / exHot.sent) * 100) ∧
    pyRound 2 (((exHot.totalOpen : ℚ) / exHot.sent) * 100) = 150 := by
  refine ⟨?_, ?_, ?_⟩
  · exact ((claim_c4_rates_total exZero "B" "B" "AM" 0 0 0 exPost9 0).1
      (by decide)).2.1
  · exact ((claim_c4_rates_total exHot "B" "B" "AM" 0 0 0 exPost9 0).2.1
      (by decide)).2.1
  · norm_num [exHot, pyRound]

/-- Witness for claim C5 at concrete inputs (25 unsubscribes over 10000
    Beehiiv recipients; 3 unsubscribes over 200 TinyEmail sends). -/
theorem claim_c5_unsub_asymmetry_witness :
    (extract_metrics 0 exPost9 "Alpha" 0).unsubscribeRate
      = pyRound 4 ((exPost9.stats.unsubscribes : ℚ)
          / exPost9.stats.recipients) ∧
    (create_metric exHot "B" 0 "AM" 0).unsubscribeRate
      = pyRound 4 (((exHot.unsubscribed : ℚ) / exHot.sent) * 100) := by
  constructor
  · exact ((claim_c5_unsub_asymmetry exHot "B" "Alpha" "AM" 0 0 0 exPost9
      0).1 (by decide)).1
  · exact ((claim_c5_unsub_asymmetry exHot "B" "Alpha" "AM" 0 0 0 exPost9
      0).2 (by decide)).1

/-- Witness for claim C6: the draft campaign is excluded from both
    segments and from the baseline; the 50-recipient Beehiiv post is
    collected. -/
theorem claim_c6_volume_status_filter_witness :
    (exDraft ∉ (separate_all_campaigns [exDraft]).1 ∧
     exDraft ∉ (separate_all_campaigns [exDraft]).2) ∧
    prevStep (0, 0) exDraft = (0, 0) ∧
    bProcessPost true true 100 ([], 0) exSmall = ([exSmall], 50) := by
  refine ⟨?_, ?_, ?_⟩
  · exact claim_c6_volume_status_filter.1 [exDraft] exDraft (by decide)
      (Or.inl (by decide))
  · exact claim_c6_volume_status_filter.2.1 (0, 0) exDraft
      (Or.inl (by decide))
  · exact claim_c6_volume_status_filter.2.2 true true 100 ([], 0) exSmall
      (by decide)

/-- Witness for claim C7: the dedicated-broadcast post is dropped on
    both the no-tag-filter and the tag-filtered path. -/
theorem claim_c7_cpm_both_paths_witness :
    bProcessPost false true 100 ([], 0) exCPM = ([], 0) ∧
    bProcessPost true true 100 ([], 0) exCPM = ([], 0) := by
  exact ⟨claim_c7_cpm_both_paths false true 100 ([], 0) exCPM (by decide),
         claim_c7_cpm_both_paths true true 100 ([], 0) exCPM (by decide)⟩

/-- Witness for claim C8: the server error on page 2 leaves exactly the
    page-1 accumulation; the missing brand yields the empty result; the
    TinyEmail exception on page 1 leaves the page-0 accumulation. -/
theorem claim_c8_partial_results_witness :
    get_posts_for_date ["Alpha"] "Alpha" exFetchErr 99 true
      = bRunPages exFetchErr 99 true true 1 1 ([], 0) ∧
    get_posts_for_date ["Alpha"] "Bravo" exFetchErr 99 true = ([], 0) ∧
    get_campaigns_for_date exTFetchErr ⟨10, 15, 2025⟩
      = tRunPages exTFetchErr (dateFormats ⟨10, 15, 2025⟩) 0 1 [] ∧
    bRunPages exFetchErr 99 true true 1 1 ([], 0)
      = ([exPostOld], 1000) := by
  refine ⟨?_, ?_, ?_, ?_⟩
  · exact claim_c8_partial_results.1 ["Alpha"] "Alpha" exFetchErr 99 true 1
      (by decide) (by decide)
      (fun i h => by
        interval_cases i
        · exact ⟨[exPostOld], 3, by decide, by decide, by decide⟩)
      (Or.inl ⟨500, by decide⟩)
  · exact claim_c8_partial_results.2.1 ["Alpha"] "Bravo" exFetchErr 99 true
      (by decide)
  · exact claim_c8_partial_results.2.2 exTFetchErr ⟨10, 15, 2025⟩ 1
      (by decide)
      (fun i h => by
        interval_cases i
        · exact ⟨[exDDAM], by decide⟩)
      (Or.inr (by decide))
  · decide

/-- Witness for claim C10: the post returned by the concrete search has
    its date drawn from its own timestamp (day 100), independent of the
    `datetime.now()` argument; a post with no timestamp contributes
    nothing. -/
theorem claim_c10_publish_date_present_witness :
    (extract_metrics 555 exSmall "B" 7).dateDay = 100 ∧
    bProcessPost true true 100 ([], 0) exNoDate = ([], 0) := by
  constructor
  · obtain ⟨ts, hts, hne, hall⟩ := claim_c10_publish_date_present.1
      ["Alpha"] "Alpha" exFetchSmall 100 true exSmall (by decide)
    have hts' : some (8640000 : Int) = some ts := by
      rw [← hts]
      rfl
    injection hts' with e
    rw [hall 555 "B" 7, ← e]
    decide
  · exact claim_c10_publish_date_present.2 true true 100 ([], 0) exNoDate
      (Or.inl rfl)

end NewsWriter
